import Mathlib

set_option linter.unusedVariables false

/-!
Shallow embedding of the canvas rendering module of `src/app.js`
(`initCanvas` and its drawing routines).

The 2D drawing context is modelled as a trace: every context call the
module performs is recorded, in program order, as one element of a
`List DrawCmd`.  Gradient objects are built purely before they are
assigned to `fillStyle`, exactly as in the source, so only the
assignment appears in the trace.  Numbers are exact rationals; the
environment supplies `Math.cos`, `Math.sin` and `Math.PI` abstractly,
since no claim depends on their values, together with the device pixel
ratio reported by the host.
-/

/-- JS `Math.round` on exact inputs: round half toward positive infinity. -/
def jsRound (x : ℚ) : ℤ := ⌊x + 1/2⌋

/-- The context transform matrix, as set by `ctx.setTransform(a, b, c, d, e, f)`. -/
structure Transform where
  a : ℚ
  b : ℚ
  c : ℚ
  d : ℚ
  e : ℚ
  f : ℚ
  deriving Repr, DecidableEq

/-- Apply a transform to a logical point, yielding physical coordinates. -/
def Transform.apply (t : Transform) (x y : ℚ) : ℚ × ℚ :=
  (t.a * x + t.c * y + t.e, t.b * x + t.d * y + t.f)

/-- Determinant of the linear part: the area scale of the transform. -/
def Transform.det (t : Transform) : ℚ := t.a * t.d - t.b * t.c

/-- A paint style: a CSS color string, or a gradient with its color stops. -/
inductive Style where
  | color (s : String)
  | linearGradient (x0 y0 x1 y1 : ℚ) (stops : List (ℚ × String))
  | radialGradient (x0 y0 r0 x1 y1 r1 : ℚ) (stops : List (ℚ × String))
  deriving Repr, DecidableEq

/-- One recorded 2D-context call. -/
inductive DrawCmd where
  | clearRect (x y w h : ℚ)
  | save
  | restore
  | beginPath
  | closePath
  | moveTo (x y : ℚ)
  | lineTo (x y : ℚ)
  | quadraticCurveTo (cpx cpy x y : ℚ)
  | arc (x y r a0 a1 : ℚ)
  | ellipse (x y rx ry rot a0 a1 : ℚ)
  | fill
  | stroke
  | setFillStyle (s : Style)
  | setStrokeStyle (s : Style)
  | setLineWidth (w : ℚ)
  | setLineCap (s : String)
  | setLineJoin (s : String)
  | translate (x y : ℚ)
  | rotate (r : ℚ)
  | setTransform (a b c d e f : ℚ)
  | setFont (s : String)
  | setTextAlign (s : String)
  | setTextBaseline (s : String)
  | fillText (t : String) (x y : ℚ)
  deriving Repr, DecidableEq

/-- The canvas element: layout (CSS) size, physical buffer size, style strings. -/
structure Canvas where
  clientWidth : ℚ
  clientHeight : ℚ
  width : ℤ
  height : ℤ
  styleWidth : String
  styleHeight : String
  deriving Repr, DecidableEq

/-- Abstract stand-ins for `Math.cos`, `Math.sin` and `Math.PI`. -/
structure MathEnv where
  cos : ℚ → ℚ
  sin : ℚ → ℚ
  pi : ℚ

/-- The host environment: `window.devicePixelRatio` (absent or zero counts
as falsy in JS) and the math functions. -/
structure Env where
  scaleFactor : Option ℚ
  math : MathEnv

/-- `window.devicePixelRatio || 1`: falsy (absent or zero) defaults to 1. -/
def resolveDpr (d : Option ℚ) : ℚ :=
  match d with
  | none => 1
  | some v => if v = 0 then 1 else v

/-- `word || ''`: a JS string or-default, where the empty string is falsy. -/
def jsStrOr (w : Option String) : String :=
  match w with
  | none => ""
  | some s => if s = "" then "" else s

/-- Module state captured by the `initCanvas` closure: the canvas, the
current context transform, `dpr`, `hintText` and `currentImage`. -/
structure CanvasApp where
  canvas : Canvas
  transform : Transform
  dpr : ℚ
  hintText : String
  currentImage : ℕ
  deriving Repr, DecidableEq

/-- `roundRect(ctx, x, y, width, height, radius)`: four straight edges
joined by four quadratic-curve corners. -/
def roundRect (x y width height radius : ℚ) : List DrawCmd :=
  [ DrawCmd.beginPath,
    DrawCmd.moveTo (x + radius) y,
    DrawCmd.lineTo (x + width - radius) y,
    DrawCmd.quadraticCurveTo (x + width) y (x + width) (y + radius),
    DrawCmd.lineTo (x + width) (y + height - radius),
    DrawCmd.quadraticCurveTo (x + width) (y + height) (x + width - radius) (y + height),
    DrawCmd.lineTo (x + radius) (y + height),
    DrawCmd.quadraticCurveTo x (y + height) x (y + height - radius),
    DrawCmd.lineTo x (y + radius),
    DrawCmd.quadraticCurveTo x y (x + radius) y,
    DrawCmd.closePath ]

/-- `drawApple(w, h)`: body circle, leaf ellipse, stem stroke. -/
def drawApple (m : MathEnv) (w h : ℚ) : List DrawCmd :=
  let cx := w * 0.35
  let cy := h * 0.45
  let r := min w h * 0.18
  [ DrawCmd.beginPath,
    DrawCmd.setFillStyle (Style.color "#ff6b6b"),
    DrawCmd.arc cx cy r 0 (m.pi * 2),
    DrawCmd.fill,
    DrawCmd.beginPath,
    DrawCmd.setFillStyle (Style.color "#58d68d"),
    DrawCmd.ellipse (cx + r * 0.55) (cy - r * 0.75) (r * 0.32) (r * 0.18) (-0.6) 0 (m.pi * 2),
    DrawCmd.fill,
    DrawCmd.beginPath,
    DrawCmd.setStrokeStyle (Style.color "#6b4c2b"),
    DrawCmd.setLineWidth 4,
    DrawCmd.moveTo cx (cy - r * 0.8),
    DrawCmd.lineTo (cx + r * 0.1) (cy - r * 1.45),
    DrawCmd.stroke ]

/-- `drawBanana(w, h)`: rotated local frame, two quadratic curves filled
with a horizontal gradient, a highlight stroke and a brown tip. -/
def drawBanana (m : MathEnv) (w h : ℚ) : List DrawCmd :=
  let cx := w * 0.45
  let cy := h * 0.5
  let r := min w h * 0.22
  let L := r * 2.1
  let H := r * 0.8
  [ DrawCmd.save,
    DrawCmd.translate cx cy,
    DrawCmd.rotate (-0.3),
    DrawCmd.beginPath,
    DrawCmd.moveTo (-L * 0.5) (-H * 0.35),
    DrawCmd.quadraticCurveTo (-L * 0.15) (-H * 1.0) (L * 0.45) (-H * 0.3),
    DrawCmd.quadraticCurveTo (L * 0.2) (H * 0.95) (-L * 0.55) (H * 0.4),
    DrawCmd.closePath,
    DrawCmd.setFillStyle (Style.linearGradient (-L * 0.5) 0 (L * 0.5) 0
      [(0, "#ffd23f"), (0.6, "#ffcf4d"), (1, "#ffd23f")]),
    DrawCmd.fill,
    DrawCmd.beginPath,
    DrawCmd.moveTo (-L * 0.25) (-H * 0.15),
    DrawCmd.quadraticCurveTo 0 (-H * 0.55) (L * 0.28) (-H * 0.11),
    DrawCmd.setStrokeStyle (Style.color "rgba(255,255,255,0.55)"),
    DrawCmd.setLineWidth 3,
    DrawCmd.stroke,
    DrawCmd.beginPath,
    DrawCmd.setFillStyle (Style.color "#6b4c2b") ]
  ++ roundRect (L * 0.35) (-H * 0.42) (L * 0.08) (H * 0.16) 3
  ++ [ DrawCmd.fill,
       DrawCmd.restore ]

/-- `drawOrange(w, h)`: radial-gradient disc, navel, ten texture lines
spaced 36 degrees apart, and a rotated leaf. -/
def drawOrange (m : MathEnv) (w h : ℚ) : List DrawCmd :=
  let cx := w * 0.32
  let cy := h * 0.5
  let r := min w h * 0.17
  [ DrawCmd.save,
    DrawCmd.beginPath,
    DrawCmd.setFillStyle (Style.radialGradient (cx - r * 0.2) (cy - r * 0.2) (r * 0.05) cx cy r
      [(0, "#ffd07a"), (0.6, "#ff9f1c"), (1, "#f68b1f")]),
    DrawCmd.arc cx cy r 0 (m.pi * 2),
    DrawCmd.fill,
    DrawCmd.beginPath,
    DrawCmd.setFillStyle (Style.color "#f2a43d"),
    DrawCmd.arc (cx + r * 0.08) (cy - r * 0.05) (r * 0.07) 0 (m.pi * 2),
    DrawCmd.fill,
    DrawCmd.beginPath,
    DrawCmd.setStrokeStyle (Style.color "rgba(255,255,255,0.06)"),
    DrawCmd.setLineWidth 2 ]
  ++ ((List.range 10).flatMap fun i =>
        let a := (i : ℚ) / 10 * m.pi * 2
        [ DrawCmd.moveTo (cx + m.cos a * r * 0.1) (cy + m.sin a * r * 0.1),
          DrawCmd.lineTo (cx + m.cos a * r * 0.9) (cy + m.sin a * r * 0.9) ])
  ++ [ DrawCmd.stroke,
       DrawCmd.beginPath,
       DrawCmd.save,
       DrawCmd.translate (cx + r * 0.62) (cy - r * 0.68),
       DrawCmd.rotate (-0.6),
       DrawCmd.setFillStyle (Style.color "#5ec26b"),
       DrawCmd.moveTo 0 0,
       DrawCmd.quadraticCurveTo (r * 0.2) (-r * 0.45) (r * 0.7) (-r * 0.5),
       DrawCmd.quadraticCurveTo (r * (-0.15)) (-r * 0.18) 0 0,
       DrawCmd.fill,
       DrawCmd.restore,
       DrawCmd.restore ]

/-- `drawBackground()`: rounded-rectangle vertical gradient panel with
radius 12, then the fruit selected by `currentImage`. -/
def drawBackground (m : MathEnv) (canvas : Canvas) (currentImage : ℕ) : List DrawCmd :=
  let w := canvas.clientWidth
  let h := canvas.clientHeight
  let radius : ℚ := 12
  DrawCmd.save
    :: DrawCmd.setFillStyle (Style.linearGradient 0 0 0 h [(0, "#ffd"), (1, "#fff6cc")])
    :: (roundRect 0 0 w h radius
        ++ DrawCmd.fill
        :: ((if currentImage = 0 then drawApple m w h
             else if currentImage = 1 then drawBanana m w h
             else drawOrange m w h)
            ++ [DrawCmd.restore]))

/-- Font size used by `drawHintText`: `Math.max(28, Math.floor(Math.min(w, h) / 6))`. -/
def hintFontSize (w h : ℚ) : ℤ := max 28 ⌊min w h / 6⌋

/-- The font string `bold <base>px system-ui, Arial`. -/
def hintFont (base : ℤ) : String := "bold " ++ toString base ++ "px system-ui, Arial"

/-- `drawHintText(text)`: bold text centered at 70 percent of the width and
55 percent of the height, dark gray fill. -/
def drawHintText (canvas : Canvas) (text : String) : List DrawCmd :=
  let w := canvas.clientWidth
  let h := canvas.clientHeight
  let base := hintFontSize w h
  [ DrawCmd.save,
    DrawCmd.setFillStyle (Style.color "#222"),
    DrawCmd.setFont (hintFont base),
    DrawCmd.setTextAlign "center",
    DrawCmd.setTextBaseline "middle",
    DrawCmd.fillText text (w * 0.7) (h * 0.55),
    DrawCmd.restore ]

/-- `redraw()`: clear the full physical buffer, draw the background and
fruit, then the hint text only when it is non-empty. -/
def redraw (m : MathEnv) (s : CanvasApp) : List DrawCmd :=
  DrawCmd.clearRect 0 0 ((s.canvas.width : ℚ) / s.dpr) ((s.canvas.height : ℚ) / s.dpr)
    :: drawBackground m s.canvas s.currentImage
    ++ (if s.hintText = "" then [] else drawHintText s.canvas s.hintText)

/-- `resize()`: set the physical buffer to the rounded scaled layout size,
the style strings to the layout size, and the transform to a uniform
scale by `dpr`, then redraw. -/
def resize (env : Env) (s : CanvasApp) : CanvasApp × List DrawCmd :=
  let width := s.canvas.clientWidth
  let height := s.canvas.clientHeight
  let dpr := resolveDpr env.scaleFactor
  let canvas2 : Canvas :=
    { s.canvas with
      width := jsRound (width * dpr),
      height := jsRound (height * dpr),
      styleWidth := toString width ++ "px",
      styleHeight := toString height ++ "px" }
  let s2 : CanvasApp :=
    { s with
      canvas := canvas2,
      dpr := dpr,
      transform := { a := dpr, b := 0, c := 0, d := dpr, e := 0, f := 0 } }
  (s2, DrawCmd.setTransform dpr 0 0 dpr 0 0 :: redraw env.math s2)

/-- `nextImage()`: advance `currentImage` modulo 3, clear `hintText`, redraw. -/
def nextImage (env : Env) (s : CanvasApp) : CanvasApp × List DrawCmd :=
  let s2 : CanvasApp := { s with currentImage := (s.currentImage + 1) % 3, hintText := "" }
  (s2, redraw env.math s2)

/-- `writeText(word)`: set `hintText` to `word || ''`, redraw. -/
def writeText (env : Env) (s : CanvasApp) (word : Option String) : CanvasApp × List DrawCmd :=
  let s2 : CanvasApp := { s with hintText := jsStrOr word }
  (s2, redraw env.math s2)

/-- The state reached by one `nextImage` call. -/
def nextImageState (env : Env) (s : CanvasApp) : CanvasApp := (nextImage env s).1

/-- Successful `initCanvas` body on a present canvas: set line cap and
join, initialize the closure state, run the initial `resize()`. -/
def initApp (env : Env) (c : Canvas) : CanvasApp × List DrawCmd :=
  let s0 : CanvasApp :=
    { canvas := c,
      transform := { a := 1, b := 0, c := 0, d := 1, e := 0, f := 0 },
      dpr := resolveDpr env.scaleFactor,
      hintText := "",
      currentImage := 0 }
  let r := resize env s0
  (r.1, DrawCmd.setLineCap "round" :: DrawCmd.setLineJoin "round" :: r.2)

/-- `initCanvas(canvas)`: throws `Canvas element not found` on a missing
surface, otherwise initializes and performs the first resize and redraw. -/
def initCanvas (env : Env) (canvas : Option Canvas) : Except String (CanvasApp × List DrawCmd) :=
  match canvas with
  | none => Except.error "Canvas element not found"
  | some c => Except.ok (initApp env c)

/-- The draw commands a construction attempt emitted: none when it failed. -/
def emittedTrace : Except String (CanvasApp × List DrawCmd) → List DrawCmd
  | Except.error _ => []
  | Except.ok r => r.2

/-- One public operation of the returned module object. -/
inductive Op where
  | resize
  | nextImage
  | writeText (word : Option String)

/-- Dispatch one public operation. -/
def step (env : Env) (s : CanvasApp) : Op → CanvasApp × List DrawCmd
  | Op.resize => resize env s
  | Op.nextImage => nextImage env s
  | Op.writeText w => writeText env s w

/-- Run a sequence of public operations, concatenating the draw traces. -/
def runOps (env : Env) (s : CanvasApp) : List Op → CanvasApp × List DrawCmd
  | [] => (s, [])
  | op :: rest =>
    let r := step env s op
    let r2 := runOps env r.1 rest
    (r2.1, r.2 ++ r2.2)

/-- A 400 by 300 layout canvas, before any resize. -/
def sampleCanvas : Canvas :=
  { clientWidth := 400, clientHeight := 300, width := 0, height := 0,
    styleWidth := "", styleHeight := "" }

/-- Trivial math environment for concrete runs. -/
def mathZero : MathEnv := { cos := fun _ => 0, sin := fun _ => 0, pi := 0 }

/-- Environment reporting a device pixel ratio of 2. -/
def envTwo : Env := { scaleFactor := some 2, math := mathZero }

/-- Module state over the sample canvas in its initial scene. -/
def sampleApp : CanvasApp :=
  { canvas := sampleCanvas,
    transform := { a := 1, b := 0, c := 0, d := 1, e := 0, f := 0 },
    dpr := 1, hintText := "", currentImage := 0 }

/-- Sample state on illustration 2 with overlay text set. -/
def appTwo : CanvasApp := { sampleApp with currentImage := 2, hintText := "hola" }

/-! ### Helper lemmas -/

lemma fillText_not_mem_roundRect (t : String) (x y px py w h r : ℚ) :
    DrawCmd.fillText t x y ∉ roundRect px py w h r := by
  simp [roundRect]

lemma fillText_not_mem_drawApple (m : MathEnv) (t : String) (x y w h : ℚ) :
    DrawCmd.fillText t x y ∉ drawApple m w h := by
  simp [drawApple]

lemma fillText_not_mem_drawBanana (m : MathEnv) (t : String) (x y w h : ℚ) :
    DrawCmd.fillText t x y ∉ drawBanana m w h := by
  simp [drawBanana, fillText_not_mem_roundRect]

lemma fillText_not_mem_drawOrange (m : MathEnv) (t : String) (x y w h : ℚ) :
    DrawCmd.fillText t x y ∉ drawOrange m w h := by
  simp [drawOrange, List.mem_flatMap]

lemma fillText_not_mem_drawBackground (m : MathEnv) (c : Canvas) (ci : ℕ)
    (t : String) (x y : ℚ) :
    DrawCmd.fillText t x y ∉ drawBackground m c ci := by
  by_cases h0 : ci = 0 <;> by_cases h1 : ci = 1 <;>
    simp [drawBackground, h0, h1, fillText_not_mem_roundRect,
      fillText_not_mem_drawApple, fillText_not_mem_drawBanana,
      fillText_not_mem_drawOrange]

lemma nextImageState_currentImage (env : Env) (s : CanvasApp) :
    (nextImageState env s).currentImage = (s.currentImage + 1) % 3 := rfl

lemma iterate_nextImageState_currentImage (env : Env) :
    ∀ (n : ℕ) (s : CanvasApp),
      ((nextImageState env)^[n] s).currentImage =
        if n = 0 then s.currentImage else (s.currentImage + n) % 3 := by
  intro n
  induction n with
  | zero => intro s; simp
  | succ k ih =>
    intro s
    rw [Function.iterate_succ_apply', nextImageState_currentImage, ih s]
    by_cases hk : k = 0
    · simp [hk]
    · simp only [hk, if_false, Nat.succ_ne_zero]
      omega

lemma step_currentImage_lt (env : Env) (s : CanvasApp) (op : Op)
    (h : s.currentImage < 3) : (step env s op).1.currentImage < 3 := by
  cases op with
  | resize => simpa [step, resize] using h
  | nextImage => simp [step, nextImage]; omega
  | writeText w => simpa [step, writeText] using h

lemma runOps_currentImage_lt (env : Env) :
    ∀ (ops : List Op) (s : CanvasApp), s.currentImage < 3 →
      (runOps env s ops).1.currentImage < 3
  | [], s, h => h
  | op :: rest, s, h =>
    runOps_currentImage_lt env rest _ (step_currentImage_lt env s op h)

/-! ### Claims -/

/-- C1: `resize()` sets the physical pixel buffer to
`round(clientWidth * dpr)` by `round(clientHeight * dpr)` and the
rendering transform to a uniform scale by `dpr` with zero skew and zero
translation, so a logical point maps to `dpr` times itself and a logical
unit square covers `dpr * dpr` physical pixels; on a 400 by 300 layout at
scale 2 the buffer becomes 800 by 600. -/
theorem resize_buffer_and_transform (env : Env) (s : CanvasApp) :
    (resize env s).1.canvas.width = jsRound (s.canvas.clientWidth * resolveDpr env.scaleFactor)
    ∧ (resize env s).1.canvas.height = jsRound (s.canvas.clientHeight * resolveDpr env.scaleFactor)
    ∧ (resize env s).1.transform =
        { a := resolveDpr env.scaleFactor, b := 0, c := 0,
          d := resolveDpr env.scaleFactor, e := 0, f := 0 }
    ∧ (∀ x y : ℚ, Transform.apply (resize env s).1.transform x y
        = (resolveDpr env.scaleFactor * x, resolveDpr env.scaleFactor * y))
    ∧ Transform.det (resize env s).1.transform
        = resolveDpr env.scaleFactor * resolveDpr env.scaleFactor
    ∧ (resize envTwo sampleApp).1.canvas.width = 800
    ∧ (resize envTwo sampleApp).1.canvas.height = 600
    ∧ (resize envTwo sampleApp).1.transform = { a := 2, b := 0, c := 0, d := 2, e := 0, f := 0 } := by
  refine ⟨rfl, rfl, rfl, ?_, ?_, ?_, ?_, rfl⟩
  · intro x y; simp [Transform.apply, resize]
  · simp [Transform.det, resize]
  · show jsRound ((400 : ℚ) * resolveDpr (some 2)) = 800
    norm_num [jsRound, resolveDpr]
  · show jsRound ((300 : ℚ) * resolveDpr (some 2)) = 600
    norm_num [jsRound, resolveDpr]

/-- C2: every redraw is exactly: clear the full physical buffer, then the
rounded-rectangle (radius 12) vertical pale-yellow gradient panel over
the full logical area, then the illustration selected by `currentImage`,
then the overlay text, which appears in the trace if and only if
`hintText` is non-empty. -/
theorem redraw_sequence (m : MathEnv) (s : CanvasApp) :
    redraw m s =
      DrawCmd.clearRect 0 0 ((s.canvas.width : ℚ) / s.dpr) ((s.canvas.height : ℚ) / s.dpr)
        :: drawBackground m s.canvas s.currentImage
        ++ (if s.hintText = "" then [] else drawHintText s.canvas s.hintText)
    ∧ drawBackground m s.canvas s.currentImage =
        DrawCmd.save
          :: DrawCmd.setFillStyle (Style.linearGradient 0 0 0 s.canvas.clientHeight
              [(0, "#ffd"), (1, "#fff6cc")])
          :: (roundRect 0 0 s.canvas.clientWidth s.canvas.clientHeight 12
              ++ DrawCmd.fill
              :: ((if s.currentImage = 0 then drawApple m s.canvas.clientWidth s.canvas.clientHeight
                   else if s.currentImage = 1 then drawBanana m s.canvas.clientWidth s.canvas.clientHeight
                   else drawOrange m s.canvas.clientWidth s.canvas.clientHeight)
                  ++ [DrawCmd.restore]))
    ∧ ((∃ x y, DrawCmd.fillText s.hintText x y ∈ redraw m s) ↔ s.hintText ≠ "") := by
  refine ⟨rfl, rfl, ?_⟩
  constructor
  · rintro ⟨x, y, hmem⟩ hempty
    simp only [redraw, hempty] at hmem
    simp at hmem
    exact fillText_not_mem_drawBackground m s.canvas s.currentImage "" x y hmem
  · intro hne
    refine ⟨s.canvas.clientWidth * 0.7, s.canvas.clientHeight * 0.55, ?_⟩
    simp [redraw, hne, drawHintText]

/-- C3: `nextImage()` sets the illustration index to `(current + 1) % 3`,
clears the overlay text regardless of its prior value, and emits exactly
a redraw of the new state (which is never empty). -/
theorem nextImage_spec (env : Env) (s : CanvasApp) :
    (nextImage env s).1.currentImage = (s.currentImage + 1) % 3
    ∧ (nextImage env s).1.hintText = ""
    ∧ (nextImage env s).2 = redraw env.math (nextImage env s).1
    ∧ (nextImage env s).2 ≠ [] := by
  refine ⟨rfl, rfl, rfl, ?_⟩
  simp [nextImage, redraw]

/-- C4: `writeText(x)` stores exactly `x` when `x` is a string and the
empty string when `x` is null or absent, never changes the illustration
index, and emits a redraw of the new state. -/
theorem writeText_spec (env : Env) (s : CanvasApp) (x : String) (w : Option String) :
    (writeText env s (some x)).1.hintText = x
    ∧ (writeText env s none).1.hintText = ""
    ∧ (writeText env s w).1.currentImage = s.currentImage
    ∧ (writeText env s w).2 = redraw env.math (writeText env s w).1 := by
  refine ⟨?_, rfl, rfl, rfl⟩
  by_cases hx : x = ""
  · simp [writeText, jsStrOr, hx]
  · simp [writeText, jsStrOr, hx]

/-- C5: construction on a present canvas succeeds with illustration index
0, and every sequence of public operations keeps the index inside
`{0, 1, 2}`: no reachable state is out of range. -/
theorem currentImage_invariant (env : Env) (c : Canvas) (ops : List Op) :
    initCanvas env (some c) = Except.ok (initApp env c)
    ∧ (initApp env c).1.currentImage = 0
    ∧ (runOps env (initApp env c).1 ops).1.currentImage < 3 := by
  refine ⟨rfl, rfl, ?_⟩
  exact runOps_currentImage_lt env ops _ (by norm_num [initApp, resize])

/-- C6: constructing with a missing drawing surface fails immediately with
the configuration error, and no draw command is emitted. -/
theorem initCanvas_missing_surface (env : Env) :
    initCanvas env none = Except.error "Canvas element not found"
    ∧ emittedTrace (initCanvas env none) = [] :=
  ⟨rfl, rfl⟩

/-- C7: the module is deterministic: the same operation sequence from
equal initial states in equal environments yields the identical final
state and a bit-identical draw-command trace. -/
theorem runOps_deterministic (envA envB : Env) (sA sB : CanvasApp) (ops : List Op)
    (henv : envA = envB) (hs : sA = sB) :
    runOps envA sA ops = runOps envB sB ops := by
  subst henv; subst hs; rfl

/-- Witness for C7 at a concrete environment, state and operation list. -/
theorem runOps_deterministic_witness :
    envTwo = envTwo ∧ sampleApp = sampleApp
    ∧ runOps envTwo sampleApp [Op.nextImage, Op.resize]
        = runOps envTwo sampleApp [Op.nextImage, Op.resize] :=
  ⟨rfl, rfl,
    runOps_deterministic envTwo envTwo sampleApp sampleApp [Op.nextImage, Op.resize] rfl rfl⟩

/-- C8: the overlay text is drawn with font size
`max(28, floor(min(w, h) / 6))`, bold, centered at 70 percent of the
width and 55 percent of the height; on a 400 by 300 surface that is
position (280, 165) and size 50. -/
theorem hint_text_layout (text : String) (c : Canvas) :
    DrawCmd.setFont (hintFont (hintFontSize c.clientWidth c.clientHeight)) ∈ drawHintText c text
    ∧ DrawCmd.setTextAlign "center" ∈ drawHintText c text
    ∧ DrawCmd.setTextBaseline "middle" ∈ drawHintText c text
    ∧ DrawCmd.fillText text (c.clientWidth * 0.7) (c.clientHeight * 0.55) ∈ drawHintText c text
    ∧ hintFontSize 400 300 = 50
    ∧ hintFont 50 = "bold 50px system-ui, Arial"
    ∧ DrawCmd.fillText "hola" 280 165 ∈ drawHintText sampleCanvas "hola" := by
  refine ⟨?_, ?_, ?_, ?_, ?_, rfl, ?_⟩
  · simp [drawHintText]
  · simp [drawHintText]
  · simp [drawHintText]
  · simp [drawHintText]
  · norm_num [hintFontSize]
  · have h1 : (280 : ℚ) = sampleCanvas.clientWidth * 0.7 := by norm_num [sampleCanvas]
    have h2 : (165 : ℚ) = sampleCanvas.clientHeight * 0.55 := by norm_num [sampleCanvas]
    rw [h1, h2]
    simp [drawHintText]

/-- C9: from any valid scene state (index below 3), three `nextImage`
calls restore the illustration index, and `n` calls give the same index
as `n % 3` calls. -/
theorem nextImage_period_three (env : Env) (s : CanvasApp) (n : ℕ)
    (h : s.currentImage < 3) :
    ((nextImageState env)^[3] s).currentImage = s.currentImage
    ∧ ((nextImageState env)^[n] s).currentImage
        = ((nextImageState env)^[n % 3] s).currentImage := by
  constructor
  · rw [iterate_nextImageState_currentImage]
    simp only [OfNat.ofNat_ne_zero, if_false]
    omega
  · rw [iterate_nextImageState_currentImage, iterate_nextImageState_currentImage]
    split_ifs <;> omega

/-- Witness for C9 at illustration 2 with overlay text set and n = 7. -/
theorem nextImage_period_three_witness :
    appTwo.currentImage < 3
    ∧ (((nextImageState envTwo)^[3] appTwo).currentImage = appTwo.currentImage
       ∧ ((nextImageState envTwo)^[7] appTwo).currentImage
           = ((nextImageState envTwo)^[7 % 3] appTwo).currentImage) :=
  ⟨by decide, nextImage_period_three envTwo appTwo 7 (by decide)⟩

/-- C10: the illustration dispatch is total: the background trace always
contains exactly one illustration segment, chosen as apple for index 0,
banana for index 1, and orange for every other value; indices of the form
`k + 2`, including out-of-range ones, all fall through to the orange, and
no illustration segment is ever empty. -/
theorem illustration_dispatch_total (m : MathEnv) (c : Canvas) (ci : ℕ) :
    (∃ ill, drawBackground m c ci =
        DrawCmd.save
          :: DrawCmd.setFillStyle (Style.linearGradient 0 0 0 c.clientHeight
              [(0, "#ffd"), (1, "#fff6cc")])
          :: (roundRect 0 0 c.clientWidth c.clientHeight 12
              ++ DrawCmd.fill :: (ill ++ [DrawCmd.restore]))
      ∧ ill = (if ci = 0 then drawApple m c.clientWidth c.clientHeight
               else if ci = 1 then drawBanana m c.clientWidth c.clientHeight
               else drawOrange m c.clientWidth c.clientHeight)
      ∧ ill ≠ [])
    ∧ drawBackground m c (ci + 2) =
        DrawCmd.save
          :: DrawCmd.setFillStyle (Style.linearGradient 0 0 0 c.clientHeight
              [(0, "#ffd"), (1, "#fff6cc")])
          :: (roundRect 0 0 c.clientWidth c.clientHeight 12
              ++ DrawCmd.fill
              :: (drawOrange m c.clientWidth c.clientHeight ++ [DrawCmd.restore])) := by
  constructor
  · refine ⟨_, rfl, rfl, ?_⟩
    split_ifs <;> simp [drawApple, drawBanana, drawOrange]
  · have h0 : ci + 2 ≠ 0 := by omega
    have h1 : ci + 2 ≠ 1 := by omega
    simp [drawBackground, h0, h1]
